import Mathlib

set_option linter.unusedVariables false

/-!
Shallow embedding of the multi-strategy scraping pipeline
(services/scraping_manager.py, services/bs4_service.py,
services/firecrawl_service.py, services/deepseek_service.py,
services/content_filter.py and the reconciliation actions of app.py),
with theorems settling the specification claims about it.

External effects (HTTP responses, library exceptions, the LLM reply,
file-system writes) are parametrized as explicit environment inputs;
everything the repository's own code computes is translated directly.
-/

/-- Python's whitespace class `\\s` / `str.strip`: space, tab, newline,
carriage return, form feed, vertical tab. -/
def isPyWS (c : Char) : Bool :=
  c = ' ' || c = '\t' || c = '\n' || c = '\r' || c = '\x0b' || c = '\x0c'

/-- Drop trailing whitespace from a character list. -/
def stripTrailingWS (cs : List Char) : List Char :=
  (cs.reverse.dropWhile isPyWS).reverse

/-- Python `str.strip()`: remove leading and trailing whitespace. -/
def pyStrip (s : String) : String :=
  String.mk (stripTrailingWS (s.toList.dropWhile isPyWS))

/-- The result dictionary every scraping strategy returns.
`filename := none` models a Python dict that has no "filename" key at all
(several failure returns omit it); `some s` models `"filename": s`. -/
structure ScrapeResult where
  success : Bool
  markdown : String
  error : Option String
  filename : Option String
deriving DecidableEq, Repr

/-- The four scraping strategies dispatched by ScrapingManager. -/
inductive Variant where
  | bs4
  | crawl4ai
  | playwright
  | firecrawl
deriving DecidableEq, Repr

/-- Environment of one ScrapingManager call: the result each underlying
service would produce for the requested URL. `none` for crawl4ai /
playwright models the optional dependency being absent (the import at the
top of scraping_manager.py failed, so the service attribute is `None`). -/
structure ManagerEnv where
  bs4 : ScrapeResult
  crawl4ai : Option ScrapeResult
  playwright : Option ScrapeResult
  firecrawl : ScrapeResult
deriving DecidableEq, Repr

/-- Step 4 of `_scrape_auto`: Firecrawl is attempted unconditionally and
its result is returned as-is. -/
def scrapeAutoFirecrawl (env : ManagerEnv) (attempted : List Variant) :
    ScrapeResult × List Variant :=
  (env.firecrawl, attempted ++ [Variant.firecrawl])

/-- Step 3 of `_scrape_auto`: Playwright, only if its service is present. -/
def scrapeAutoPlaywright (env : ManagerEnv) (attempted : List Variant) :
    ScrapeResult × List Variant :=
  match env.playwright with
  | some r =>
      if r.success then (r, attempted ++ [Variant.playwright])
      else scrapeAutoFirecrawl env (attempted ++ [Variant.playwright])
  | none => scrapeAutoFirecrawl env attempted

/-- Step 2 of `_scrape_auto`: Crawl4AI, only if its service is present. -/
def scrapeAutoCrawl4ai (env : ManagerEnv) (attempted : List Variant) :
    ScrapeResult × List Variant :=
  match env.crawl4ai with
  | some r =>
      if r.success then (r, attempted ++ [Variant.crawl4ai])
      else scrapeAutoPlaywright env (attempted ++ [Variant.crawl4ai])
  | none => scrapeAutoPlaywright env attempted

/-- `ScrapingManager._scrape_auto`: BS4 → Crawl4AI → Playwright → Firecrawl.
Also returns the ordered list of variants that were actually invoked. -/
def scrapeAuto (env : ManagerEnv) : ScrapeResult × List Variant :=
  let res := env.bs4
  if res.success then (res, [Variant.bs4])
  else scrapeAutoCrawl4ai env [Variant.bs4]

/-- `ScrapingManager.scrape_url`: dispatch on the stripped method string.
Also returns the ordered list of variants that were actually invoked. -/
def managerScrapeUrl (env : ManagerEnv) (url : String) (method : String) :
    ScrapeResult × List Variant :=
  let methodKey := pyStrip method
  if methodKey = "BS4" then (env.bs4, [Variant.bs4])
  else if methodKey = "Crawl4AI" then
    match env.crawl4ai with
    | some r => (r, [Variant.crawl4ai])
    | none =>
        ({ success := false, markdown := "",
           error := some "Crawl4AI service not available",
           filename := some "" }, [])
  else if methodKey = "Playwright" then
    match env.playwright with
    | some r => (r, [Variant.playwright])
    | none =>
        ({ success := false, markdown := "",
           error := some "Playwright service not available",
           filename := some "" }, [])
  else if methodKey = "Firecrawl" then (env.firecrawl, [Variant.firecrawl])
  else if methodKey = "Auto" then scrapeAuto env
  else
    ({ success := false, markdown := "",
       error := some ("Unknown method: " ++ method),
       filename := some "" }, [])

/-- The per-URL step of `process_extraction` in app.py: a non-blank URL is
stripped and handed to the ScrapingManager, a blank one short-circuits to
the "Empty URL" failure dict (which has no "filename" key). -/
def processUrl (env : ManagerEnv) (url : String) (method : String) :
    ScrapeResult × List Variant :=
  if url ≠ "" ∧ pyStrip url ≠ "" then managerScrapeUrl env (pyStrip url) method
  else
    ({ success := false, markdown := "", error := some "Empty URL",
       filename := none }, [])

/-- Spec-side reference for the Automatic mode ("fixed-order fallback
chain ... stopping at the first variant that returns success ... if all
attempted variants fail, the orchestrator returns the last variant's
failure result"): walk the chain in order, stop at the first success, and
remember the last attempted result to return if everything fails. -/
def tryInOrder (last : ScrapeResult) (attempted : List Variant) :
    List (Variant × ScrapeResult) → ScrapeResult × List Variant
  | [] => (last, attempted)
  | (v, r) :: rest =>
      if r.success then (r, attempted ++ [v])
      else tryInOrder r (attempted ++ [v]) rest

/-- Spec-side reference chain: the fixed order BS4, Crawl4AI, Playwright,
Firecrawl, with a variant whose optional dependency is absent skipped
(not listed) rather than attempted. -/
def availableChain (env : ManagerEnv) : List (Variant × ScrapeResult) :=
  [(Variant.bs4, env.bs4)]
    ++ (match env.crawl4ai with
        | some r => [(Variant.crawl4ai, r)]
        | none => [])
    ++ (match env.playwright with
        | some r => [(Variant.playwright, r)]
        | none => [])
    ++ [(Variant.firecrawl, env.firecrawl)]

/-- C1: In Automatic mode the orchestrator tries the strategies in the
fixed order BS4 (lightweight HTTP), Crawl4AI, Playwright, Firecrawl,
stopping at the first success (nothing later is invoked), skipping a
variant whose optional dependency is absent, and — when every attempted
variant fails — returning the last attempted variant's failure result:
`_scrape_auto` coincides, result and attempt trace alike, with the
spec-worded first-success walk over the chain of available variants. -/
theorem c1_auto_fallback_chain (env : ManagerEnv) (r0 : ScrapeResult) :
    scrapeAuto env = tryInOrder r0 [] (availableChain env) := by
  rcases env with ⟨b, c, p, f⟩
  by_cases hb : b.success
  · cases c <;> cases p <;>
      simp [scrapeAuto, availableChain, tryInOrder, hb]
  · cases c with
    | none =>
      cases p with
      | none =>
        simp [scrapeAuto, scrapeAutoCrawl4ai, scrapeAutoPlaywright,
          scrapeAutoFirecrawl, availableChain, tryInOrder, hb]
      | some rp =>
        by_cases hp : rp.success <;>
          simp [scrapeAuto, scrapeAutoCrawl4ai, scrapeAutoPlaywright,
            scrapeAutoFirecrawl, availableChain, tryInOrder, hb, hp]
    | some rc =>
      by_cases hc : rc.success
      · cases p <;>
          simp [scrapeAuto, scrapeAutoCrawl4ai, scrapeAutoPlaywright,
            scrapeAutoFirecrawl, availableChain, tryInOrder, hb, hc]
      · cases p with
        | none =>
          simp [scrapeAuto, scrapeAutoCrawl4ai, scrapeAutoPlaywright,
            scrapeAutoFirecrawl, availableChain, tryInOrder, hb, hc]
        | some rp =>
          by_cases hp : rp.success <;>
            simp [scrapeAuto, scrapeAutoCrawl4ai, scrapeAutoPlaywright,
              scrapeAutoFirecrawl, availableChain, tryInOrder, hb, hc, hp]

/-- C9: An empty or blank (whitespace-only) URL short-circuits, for every
method choice, to a failure result with error "Empty URL", and no scraping
variant is invoked (the attempt trace is empty). The guard lives in the
per-URL step of `process_extraction` (app.py), which wraps every
ScrapingManager call. -/
theorem c9_empty_url_short_circuit (env : ManagerEnv) (url method : String)
    (h : pyStrip url = "") :
    processUrl env url method =
      ({ success := false, markdown := "", error := some "Empty URL",
         filename := none }, []) := by
  simp [processUrl, h]

/-- Witness for C9 at the blank URL "  ". -/
theorem c9_empty_url_short_circuit_witness :
    pyStrip ("  " : String) = "" ∧
      processUrl
        ⟨{ success := true, markdown := "m", error := none,
           filename := some "" }, none, none,
         { success := false, markdown := "", error := some "e",
           filename := none }⟩ "  " "Auto" =
      ({ success := false, markdown := "", error := some "Empty URL",
         filename := none }, []) :=
  ⟨by decide, c9_empty_url_short_circuit _ "  " "Auto" (by decide)⟩

/-- C10: Any method string whose stripped form is outside
{BS4, Crawl4AI, Playwright, Firecrawl, Auto} makes `scrape_url` return the
"Unknown method" failure dict (with the original, unstripped method string
in the message and `"filename": ""`), invoking no scraping strategy. -/
theorem c10_unknown_method (env : ManagerEnv) (url method : String)
    (h : pyStrip method ∉ ["BS4", "Crawl4AI", "Playwright", "Firecrawl", "Auto"]) :
    managerScrapeUrl env url method =
      ({ success := false, markdown := "",
         error := some ("Unknown method: " ++ method),
         filename := some "" }, []) := by
  simp only [List.mem_cons, List.not_mem_nil, or_false, not_or] at h
  obtain ⟨h1, h2, h3, h4, h5⟩ := h
  simp [managerScrapeUrl, h1, h2, h3, h4, h5]

/-- Witness for C10 at the method string " Selenium ". -/
theorem c10_unknown_method_witness :
    pyStrip (" Selenium " : String) ∉
        ["BS4", "Crawl4AI", "Playwright", "Firecrawl", "Auto"] ∧
      managerScrapeUrl
        ⟨{ success := true, markdown := "m", error := none,
           filename := some "" }, none, none,
         { success := false, markdown := "", error := some "e",
           filename := none }⟩ "http://x" " Selenium " =
      ({ success := false, markdown := "",
         error := some ("Unknown method: " ++ " Selenium "),
         filename := some "" }, []) :=
  ⟨by decide, c10_unknown_method _ "http://x" " Selenium " (by decide)⟩

/-- Outcome of one HTTP attempt inside `BS4Service.scrape_url`.
`httpStatus code md fname` is a response with the given status code;
`md` is the markdown the decode → content-filter → html2text pipeline
would yield from its body and `fname` the artifact name `_save_markdown`
would return — both deterministic functions of the response, folded into
the environment. `otherExn` is any other exception raised in the try
body. -/
inductive BS4Outcome where
  | timeout
  | connError (msg : String)
  | httpStatus (code : Nat) (md : String) (fname : String)
  | otherExn (msg : String)
deriving DecidableEq, Repr

/-- One iteration of the try body of `BS4Service.scrape_url`: 403/429/503
raise their dedicated blocking messages, `raise_for_status` raises on any
other 4xx/5xx, anything else is a success returning the pipeline's
markdown. The `Except.error` payload is the `last_error` string the
enclosing loop records. -/
def bs4Attempt : BS4Outcome → Except String ScrapeResult
  | .timeout => .error "Request timed out"
  | .connError msg => .error ("Connection error: " ++ msg)
  | .otherExn msg => .error msg
  | .httpStatus code md fname =>
      if code = 403 then .error "403 Forbidden - Site may be blocking requests"
      else if code = 429 then .error "429 Too Many Requests - Rate limited"
      else if code = 503 then .error "503 Service Unavailable - May need retry"
      else if 400 ≤ code ∧ code < 600 then
        .error ("HTTPError " ++ toString code)
      else
        .ok { success := true, markdown := md, error := none,
              filename := some fname }

/-- The retry loop `for attempt in range(self.max_retries)` of
`BS4Service.scrape_url`, with `attempt` the current index and the fuel
the iterations left. Returns (result, backoff sleeps performed, number of
attempts made). Every caught exception is recorded as `last_error` and
retried; attempts after the first sleep `2 ^ attempt` seconds first. -/
def bs4Go (outcomes : Nat → BS4Outcome) (lastError : Option String)
    (attempt : Nat) : Nat → ScrapeResult × List Nat × Nat
  | 0 =>
      ({ success := false, markdown := "", error := lastError,
         filename := some "" }, [], 0)
  | fuel + 1 =>
      let ws : List Nat := if attempt = 0 then [] else [2 ^ attempt]
      match bs4Attempt (outcomes attempt) with
      | .ok r => (r, ws, 1)
      | .error e =>
          let rest := bs4Go outcomes (some e) (attempt + 1) fuel
          (rest.1, ws ++ rest.2.1, 1 + rest.2.2)

/-- `BS4Service.scrape_url` (max_retries defaults to 3 and is always 3 in
the app): run the retry loop from attempt 0 with `last_error = None`. -/
def bs4ScrapeUrl (outcomes : Nat → BS4Outcome) (maxRetries : Nat) :
    ScrapeResult × List Nat × Nat :=
  bs4Go outcomes none 0 maxRetries

/-- Attempt outcomes exhibiting that BS4 retries an HTTP 404: the first
attempt gets a 404 response, the second a 200 response. -/
def c7Outcomes : Nat → BS4Outcome
  | 0 => BS4Outcome.httpStatus 404 "" ""
  | 1 => BS4Outcome.httpStatus 200 "MD" "file.md"
  | _ => BS4Outcome.timeout

/-- C7 is false as stated: the claim's "retrying exactly on timeout,
connection error, or HTTP status 403, 429, or 503" fails because the
generic `except Exception` clause retries every error. Here the first
attempt's HTTP 404 raises (via `raise_for_status`) a non-listed error,
yet a second attempt is made — and succeeds — instead of the failure
surfacing after one attempt. -/
theorem c7_counterexample :
    bs4Attempt (c7Outcomes 0) = Except.error ("HTTPError " ++ toString 404) ∧
      bs4ScrapeUrl c7Outcomes 3 =
        ({ success := true, markdown := "MD", error := none,
           filename := some "file.md" }, [2], 2) := by
  constructor
  · rfl
  · rfl

/-- C7 amended: the lightweight-HTTP strategy attempts a fetch at most 3
times, sleeping 2^attempt seconds before retry attempt number `attempt`,
retrying on every error an attempt raises (timeout, connection error, or
any exception — including every HTTP error status), and after exhausting
all retries returns a failed ScrapeResult whose error is the last error
encountered. -/
theorem c7_retry_policy (outcomes : Nat → BS4Outcome) :
    1 ≤ (bs4ScrapeUrl outcomes 3).2.2 ∧
    (bs4ScrapeUrl outcomes 3).2.2 ≤ 3 ∧
    (bs4ScrapeUrl outcomes 3).2.1 =
      (List.range (bs4ScrapeUrl outcomes 3).2.2).filterMap
        (fun k => if k = 0 then none else some (2 ^ k)) ∧
    (∀ k, k + 1 < (bs4ScrapeUrl outcomes 3).2.2 →
      ∃ e, bs4Attempt (outcomes k) = Except.error e) ∧
    (∀ r, bs4Attempt (outcomes ((bs4ScrapeUrl outcomes 3).2.2 - 1)) =
        Except.ok r → (bs4ScrapeUrl outcomes 3).1 = r) ∧
    (∀ e, bs4Attempt (outcomes ((bs4ScrapeUrl outcomes 3).2.2 - 1)) =
        Except.error e →
      (bs4ScrapeUrl outcomes 3).2.2 = 3 ∧
      (bs4ScrapeUrl outcomes 3).1 =
        { success := false, markdown := "", error := some e,
          filename := some "" }) := by
  rcases h0 : bs4Attempt (outcomes 0) with e0 | r0
  · rcases h1 : bs4Attempt (outcomes 1) with e1 | r1
    · rcases h2 : bs4Attempt (outcomes 2) with e2 | r2
      · have key : bs4ScrapeUrl outcomes 3 =
            ({ success := false, markdown := "", error := some e2,
               filename := some "" }, [2, 4], 3) := by
          simp [bs4ScrapeUrl, bs4Go, h0, h1, h2]
        rw [key]
        refine ⟨by norm_num, by norm_num, by rfl, ?_, ?_, ?_⟩
        · intro k hk
          have hk3 : k + 1 < 3 := hk
          have hk2 : k = 0 ∨ k = 1 := by omega
          rcases hk2 with rfl | rfl
          · exact ⟨e0, h0⟩
          · exact ⟨e1, h1⟩
        · intro r hr
          rw [show (3 : Nat) - 1 = 2 from rfl, h2] at hr
          exact absurd hr (by simp)
        · intro e he
          rw [show (3 : Nat) - 1 = 2 from rfl, h2] at he
          cases he
          exact ⟨rfl, rfl⟩
      · have key : bs4ScrapeUrl outcomes 3 = (r2, [2, 4], 3) := by
          simp [bs4ScrapeUrl, bs4Go, h0, h1, h2]
        rw [key]
        refine ⟨by norm_num, by norm_num, by rfl, ?_, ?_, ?_⟩
        · intro k hk
          have hk3 : k + 1 < 3 := hk
          have hk2 : k = 0 ∨ k = 1 := by omega
          rcases hk2 with rfl | rfl
          · exact ⟨e0, h0⟩
          · exact ⟨e1, h1⟩
        · intro r hr
          rw [show (3 : Nat) - 1 = 2 from rfl, h2] at hr
          cases hr
          rfl
        · intro e he
          rw [show (3 : Nat) - 1 = 2 from rfl, h2] at he
          exact absurd he (by simp)
    · have key : bs4ScrapeUrl outcomes 3 = (r1, [2], 2) := by
        simp [bs4ScrapeUrl, bs4Go, h0, h1]
      rw [key]
      refine ⟨by norm_num, by norm_num, by rfl, ?_, ?_, ?_⟩
      · intro k hk
        have hk3 : k + 1 < 2 := hk
        have hk2 : k = 0 := by omega
        subst hk2
        exact ⟨e0, h0⟩
      · intro r hr
        rw [show (2 : Nat) - 1 = 1 from rfl, h1] at hr
        cases hr
        rfl
      · intro e he
        rw [show (2 : Nat) - 1 = 1 from rfl, h1] at he
        exact absurd he (by simp)
  · have key : bs4ScrapeUrl outcomes 3 = (r0, [], 1) := by
      simp [bs4ScrapeUrl, bs4Go, h0]
    rw [key]
    refine ⟨by norm_num, by norm_num, by rfl, ?_, ?_, ?_⟩
    · intro k hk
      exact absurd (show k + 1 < 1 from hk) (by omega)
    · intro r hr
      rw [show (1 : Nat) - 1 = 0 from rfl, h0] at hr
      cases hr
      rfl
    · intro e he
      rw [show (1 : Nat) - 1 = 0 from rfl, h0] at he
      exact absurd he (by simp)

/-- Witness for C7 amended: with every attempt timing out, three attempts
are made with sleeps [2, 4] and the failure surfaces "Request timed out"
as the last error. -/
theorem c7_retry_policy_witness :
    (bs4ScrapeUrl (fun _ => BS4Outcome.timeout) 3).2.2 = 3 ∧
      (bs4ScrapeUrl (fun _ => BS4Outcome.timeout) 3).1 =
        { success := false, markdown := "", error := some "Request timed out",
          filename := some "" } := by
  have h := c7_retry_policy (fun _ => BS4Outcome.timeout)
  have hl := h.2.2.2.2.2 "Request timed out" rfl
  exact ⟨hl.1, hl.2⟩

/-- Attempt outcomes exhibiting that BS4 retries an HTTP 403: the first
attempt gets a 403 response, the second a 200 response. -/
def c8Outcomes : Nat → BS4Outcome
  | 0 => BS4Outcome.httpStatus 403 "" ""
  | 1 => BS4Outcome.httpStatus 200 "MD" "file.md"
  | _ => BS4Outcome.timeout

/-- C8 is false as stated: an HTTP 403 does not surface immediately as a
failed ScrapeResult. The BS4 strategy turns the 403 into an exception
that its own retry loop catches, makes a second attempt (sleeping 2
seconds), and succeeds — two attempts, not one. -/
theorem c8_counterexample :
    bs4Attempt (c8Outcomes 0) =
        Except.error "403 Forbidden - Site may be blocking requests" ∧
      bs4ScrapeUrl c8Outcomes 3 =
        ({ success := true, markdown := "MD", error := none,
           filename := some "file.md" }, [2], 2) := by
  constructor
  · rfl
  · rfl

/-- C8 amended: a missing optional dependency is indeed not retried — an
explicit dispatch to an absent Crawl4AI or Playwright service returns the
unavailability failure immediately, invoking no variant — but HTTP 403,
HTTP 404 and malformed-URL errors raised inside the lightweight-HTTP
strategy are retried like any other error: whenever the first attempt
yields such an error, a second attempt is made. -/
theorem c8_permanent_error_policy :
    (∀ env : ManagerEnv, ∀ url : String, env.crawl4ai = none →
      managerScrapeUrl env url "Crawl4AI" =
        ({ success := false, markdown := "",
           error := some "Crawl4AI service not available",
           filename := some "" }, [])) ∧
    (∀ env : ManagerEnv, ∀ url : String, env.playwright = none →
      managerScrapeUrl env url "Playwright" =
        ({ success := false, markdown := "",
           error := some "Playwright service not available",
           filename := some "" }, [])) ∧
    (∀ outcomes : Nat → BS4Outcome, ∀ code : Nat, ∀ md fname : String,
      code = 403 ∨ code = 404 →
      outcomes 0 = BS4Outcome.httpStatus code md fname →
      2 ≤ (bs4ScrapeUrl outcomes 3).2.2) := by
  refine ⟨?_, ?_, ?_⟩
  · intro env url h
    rcases env with ⟨b, c, p, f⟩
    cases h
    rfl
  · intro env url h
    rcases env with ⟨b, c, p, f⟩
    cases h
    rfl
  · intro outcomes code md fname hcode h0
    have herr : ∃ e, bs4Attempt (outcomes 0) = Except.error e := by
      rcases hcode with rfl | rfl
      · exact ⟨_, by rw [h0]; rfl⟩
      · exact ⟨_, by rw [h0]; rfl⟩
    obtain ⟨e, he⟩ := herr
    rcases h1 : bs4Attempt (outcomes 1) with e1 | r1
    · rcases h2 : bs4Attempt (outcomes 2) with e2 | r2 <;>
        simp [bs4ScrapeUrl, bs4Go, he, h1, h2]
    · simp [bs4ScrapeUrl, bs4Go, he, h1]

/-- Witness for C8 amended: the absent-dependency part at a concrete
environment, and the 403-is-retried part at the c8Outcomes environment. -/
theorem c8_permanent_error_policy_witness :
    managerScrapeUrl
        ⟨{ success := true, markdown := "m", error := none,
           filename := some "" }, none, none,
         { success := false, markdown := "", error := some "e",
           filename := none }⟩ "http://x" "Crawl4AI" =
      ({ success := false, markdown := "",
         error := some "Crawl4AI service not available",
         filename := some "" }, []) ∧
    2 ≤ (bs4ScrapeUrl c8Outcomes 3).2.2 := by
  constructor
  · exact c8_permanent_error_policy.1 _ "http://x" rfl
  · exact c8_permanent_error_policy.2.2 c8Outcomes 403 "" ""
      (Or.inl rfl) rfl

/-- `str.split('\n')` on character lists (kernel-computable version of
splitting into lines). -/
def splitLinesGo (acc : List Char) : List Char → List String
  | [] => [String.mk acc.reverse]
  | '\n' :: rest => String.mk acc.reverse :: splitLinesGo [] rest
  | c :: rest => splitLinesGo (c :: acc) rest

/-- `markdown.split('\n')`. -/
def splitLines (s : String) : List String :=
  splitLinesGo [] s.toList

/-- `'\n'.join(lines)` (kernel-computable). -/
def joinLinesGo : List String → List Char
  | [] => []
  | [l] => l.toList
  | l :: rest => l.toList ++ '\n' :: joinLinesGo rest

/-- Per-character lowercasing, the effect of Python `str.lower()` on the
ASCII text involved here. -/
def lowerStr (s : String) : String :=
  String.mk (s.toList.map Char.toLower)

/-- Stems of `noise_section_patterns` in `FirecrawlService._filter_markdown`:
each regex is `^#+\s*(alt1|alt2|...)` matched against the lowercased line,
and, since `re.match` only anchors a prefix, an alternation like
`reviews?` is equivalent to its stem `review` as a prefix. -/
def noiseSectionStems : List String :=
  ["related", "recommended", "you may", "also like", "customers also",
   "similar", "review", "rating", "customer feedback", "testimonials",
   "footer", "navigation", "menu", "links", "share", "social", "follow us",
   "newsletter", "subscribe", "sign up", "recently viewed",
   "browsing history", "compare", "wishlist"]

/-- `good_patterns` of `_filter_markdown`: plain substrings searched in the
lowercased heading line. -/
def goodHeadingWords : List String :=
  ["description", "specification", "feature", "detail", "overview", "about",
   "highlight", "what\x27s in", "technical", "dimension", "warranty"]

/-- `re.match(r'^#+\s*(stem...)', line_lower)`: one or more '#', optional
whitespace, then one of the noise-section stems as a prefix. -/
def matchesNoiseSection (lineLower : String) : Bool :=
  match lineLower.toList with
  | '#' :: rest =>
      let rest1 := rest.dropWhile (fun c => c = '#')
      let rest2 := rest1.dropWhile isPyWS
      noiseSectionStems.any (fun kw => kw.toList.isPrefixOf rest2)
  | _ => false

/-- `re.match(r'^#+\s+', line)`: one or more '#' followed by at least one
whitespace character. -/
def isHeadingLine (line : String) : Bool :=
  match line.toList with
  | '#' :: rest =>
      match rest.dropWhile (fun c => c = '#') with
      | c :: _ => isPyWS c
      | [] => false
  | _ => false

/-- Substring occurrence on character lists: `pat` occurs contiguously in
the list. -/
def containsSeq (pat : List Char) : List Char → Bool
  | [] => pat.isEmpty
  | c :: rest => pat.isPrefixOf (c :: rest) || containsSeq pat rest

/-- Substring test (`pat in s` on already-lowercased text). -/
def containsSub (s : String) (pat : String) : Bool :=
  containsSeq pat.toList s.toList

/-- `re.match(r'^\s*[\*\-]\s*\[.*?\]\(.*?\)\s*$', line)`: a bullet whose
whole content is one markdown link. After the bullet marker, optional
whitespace and '[', the regex matches iff the rest, with trailing
whitespace stripped, ends in ')' and contains an adjacent "](" before it. -/
def isLinkOnlyBullet (line : String) : Bool :=
  match line.toList.dropWhile isPyWS with
  | c :: rest =>
      if c = '*' || c = '-' then
        match rest.dropWhile isPyWS with
        | '[' :: t =>
            match (stripTrailingWS t).reverse with
            | ')' :: revMid => containsSeq [']', '('] revMid.reverse
            | _ => false
        | _ => false
      else false
  | [] => false

/-- `re.match(r'^\s*\|.*\|.*\|', line)`: optional whitespace, a pipe, and
at least two further pipes later in the line. -/
def isPipeTableRow (line : String) : Bool :=
  match line.toList.dropWhile isPyWS with
  | '|' :: rest => 2 ≤ (rest.filter (fun c => c = '|')).length
  | _ => false

/-- `line.count('](')`: non-overlapping occurrences of "](" . -/
def countLinkMarks : List Char → Nat
  | ']' :: '(' :: rest => countLinkMarks rest + 1
  | _ :: rest => countLinkMarks rest
  | [] => 0

/-- The per-line loop of `_filter_markdown`, threading the
`skip_section` flag. -/
def filterLines (skip : Bool) : List String → List String
  | [] => []
  | line :: rest =>
      let lineLower := lowerStr line
      let skip1 := if matchesNoiseSection lineLower then true else skip
      let skip2 :=
        if skip1 && isHeadingLine line
            && goodHeadingWords.any (fun gp => containsSub lineLower gp)
        then false else skip1
      if skip2 then filterLines skip2 rest
      else
        let noiseLine := isLinkOnlyBullet line || isPipeTableRow line
        if 3 < countLinkMarks line.toList then filterLines skip2 rest
        else if noiseLine then filterLines skip2 rest
        else line :: filterLines skip2 rest

/-- `re.sub(r'\n{4,}', '\n\n\n', s)`: every run of four or more newlines
collapses to exactly three. `pending` counts newlines seen but not yet
emitted. -/
def squeezeGo (pending : Nat) : List Char → List Char
  | [] => if 4 ≤ pending then ['\n', '\n', '\n'] else List.replicate pending '\n'
  | '\n' :: rest => squeezeGo (pending + 1) rest
  | c :: rest =>
      (if 4 ≤ pending then ['\n', '\n', '\n'] else List.replicate pending '\n')
        ++ (c :: squeezeGo 0 rest)

/-- `FirecrawlService._filter_markdown`: split into lines, run the
noise-section / noise-line filter, re-join, collapse long newline runs,
and strip. -/
def filterMarkdown (markdown : String) : String :=
  let lines := splitLines markdown
  let filtered := filterLines false lines
  let result := String.mk (joinLinesGo filtered)
  pyStrip (String.mk (squeezeGo 0 result.toList))

/-- Outcome of one POST attempt in `FirecrawlService.scrape_url`.
`ok raw` is a 200 response whose parsed JSON carries `raw` in
data.markdown ("" when the field is missing); `httpError` any other
status code with the response text; `reqError` a non-timeout request
exception. -/
inductive FirecrawlOutcome where
  | ok (rawMarkdown : String)
  | httpError (code : Nat) (text : String)
  | timeout
  | reqError (msg : String)
deriving DecidableEq, Repr

/-- The retry loop `for attempt in range(MAX_RETRIES)` of
`FirecrawlService.scrape_url`; fuel is the iterations left, so the
current attempt is the last one exactly when `fuel = 0` after it.
`fname` is the artifact name `_save_markdown` would produce. On fuel
exhaustion the code after the loop returns "Max retries exceeded".
Failure dicts here have no "filename" key. -/
def firecrawlGo (responses : Nat → FirecrawlOutcome) (fname : String)
    (attempt : Nat) : Nat → ScrapeResult
  | 0 =>
      { success := false, markdown := "", error := some "Max retries exceeded",
        filename := none }
  | fuel + 1 =>
      match responses attempt with
      | .ok raw =>
          { success := true, markdown := filterMarkdown raw, error := none,
            filename := some fname }
      | .httpError code text =>
          if fuel = 0 then
            { success := false, markdown := "",
              error := some ("HTTP " ++ toString code ++ ": " ++ text),
              filename := none }
          else firecrawlGo responses fname (attempt + 1) fuel
      | .timeout =>
          if fuel = 0 then
            { success := false, markdown := "", error := some "Request timeout",
              filename := none }
          else firecrawlGo responses fname (attempt + 1) fuel
      | .reqError msg =>
          if fuel = 0 then
            { success := false, markdown := "", error := some msg,
              filename := none }
          else firecrawlGo responses fname (attempt + 1) fuel

/-- `FirecrawlService.scrape_url`: missing API key fails immediately
(dict without "filename"), otherwise run the retry loop (MAX_RETRIES = 3
in config/settings.py). -/
def firecrawlScrapeUrl (apiKey : Bool) (responses : Nat → FirecrawlOutcome)
    (fname : String) (maxRetries : Nat) : ScrapeResult :=
  if apiKey = false then
    { success := false, markdown := "",
      error := some "Firecrawl API key not configured", filename := none }
  else firecrawlGo responses fname 0 maxRetries

/-- C2 is false as stated: a Firecrawl 200 response whose JSON has an
empty (or missing) data.markdown field produces a ScrapeResult with
success = true and markdown = "" — success does not guarantee non-empty
markdown. -/
theorem c2_counterexample :
    (firecrawlScrapeUrl true (fun _ => FirecrawlOutcome.ok "") "f.md" 3).success
        = true ∧
      (firecrawlScrapeUrl true (fun _ => FirecrawlOutcome.ok "") "f.md" 3).markdown
        = "" := by
  constructor
  · rfl
  · rfl

/-- The part of the ScrapeResult invariant the code does maintain:
success implies a null error, and failure implies empty markdown. -/
def resultWeakInv (r : ScrapeResult) : Prop :=
  (r.success = true → r.error = none) ∧ (r.success = false → r.markdown = "")

instance (r : ScrapeResult) : Decidable (resultWeakInv r) := by
  unfold resultWeakInv
  infer_instance

/-- `bs4Attempt` only succeeds with the fixed success dict shape. -/
theorem bs4Attempt_ok_shape (o : BS4Outcome) (r : ScrapeResult)
    (h : bs4Attempt o = Except.ok r) : r.success = true ∧ r.error = none := by
  cases o with
  | timeout => exact absurd h (by simp [bs4Attempt])
  | connError m => exact absurd h (by simp [bs4Attempt])
  | otherExn m => exact absurd h (by simp [bs4Attempt])
  | httpStatus code md fname =>
      simp only [bs4Attempt] at h
      split_ifs at h with h1 h2 h3 h4
      injection h with h5
      subst h5
      exact ⟨rfl, rfl⟩

/-- The BS4 retry loop maintains the weak invariant for any fuel,
attempt index and recorded last error. -/
theorem bs4Go_weakInv (outcomes : Nat → BS4Outcome) :
    ∀ fuel lastError attempt,
      resultWeakInv (bs4Go outcomes lastError attempt fuel).1 := by
  intro fuel
  induction fuel with
  | zero =>
      intro lastError attempt
      exact ⟨by simp [bs4Go], by simp [bs4Go]⟩
  | succ n ih =>
      intro lastError attempt
      rcases hA : bs4Attempt (outcomes attempt) with e | r
      · have := ih (some e) (attempt + 1)
        simpa [bs4Go, hA] using this
      · have hs := bs4Attempt_ok_shape _ _ hA
        refine ⟨?_, ?_⟩ <;> simp [bs4Go, hA, hs.1, hs.2]

/-- The Firecrawl retry loop maintains the weak invariant. -/
theorem firecrawlGo_weakInv (responses : Nat → FirecrawlOutcome)
    (fname : String) :
    ∀ fuel attempt, resultWeakInv (firecrawlGo responses fname attempt fuel) := by
  intro fuel
  induction fuel with
  | zero =>
      intro attempt
      exact ⟨by simp [firecrawlGo], by simp [firecrawlGo]⟩
  | succ n ih =>
      intro attempt
      cases hR : responses attempt with
      | ok raw => refine ⟨?_, ?_⟩ <;> simp [firecrawlGo, hR]
      | httpError code text =>
          by_cases hn : n = 0
          · refine ⟨?_, ?_⟩ <;> simp [firecrawlGo, hR, hn]
          · have := ih (attempt + 1)
            simpa [firecrawlGo, hR, hn] using this
      | timeout =>
          by_cases hn : n = 0
          · refine ⟨?_, ?_⟩ <;> simp [firecrawlGo, hR, hn]
          · have := ih (attempt + 1)
            simpa [firecrawlGo, hR, hn] using this
      | reqError msg =>
          by_cases hn : n = 0
          · refine ⟨?_, ?_⟩ <;> simp [firecrawlGo, hR, hn]
          · have := ih (attempt + 1)
            simpa [firecrawlGo, hR, hn] using this

/-- The Auto fallback chain passes the weak invariant through. -/
theorem scrapeAuto_weakInv (env : ManagerEnv)
    (hb : resultWeakInv env.bs4) (hf : resultWeakInv env.firecrawl)
    (hc : ∀ r, env.crawl4ai = some r → resultWeakInv r)
    (hp : ∀ r, env.playwright = some r → resultWeakInv r) :
    resultWeakInv (scrapeAuto env).1 := by
  rcases env with ⟨b, c, p, f⟩
  simp only at hb hf hc hp
  by_cases hbs : b.success
  · simpa [scrapeAuto, hbs] using hb
  · cases c with
    | none =>
        cases p with
        | none =>
            simpa [scrapeAuto, scrapeAutoCrawl4ai, scrapeAutoPlaywright,
              scrapeAutoFirecrawl, hbs] using hf
        | some rp =>
            by_cases hps : rp.success
            · simpa [scrapeAuto, scrapeAutoCrawl4ai, scrapeAutoPlaywright,
                scrapeAutoFirecrawl, hbs, hps] using hp rp rfl
            · simpa [scrapeAuto, scrapeAutoCrawl4ai, scrapeAutoPlaywright,
                scrapeAutoFirecrawl, hbs, hps] using hf
    | some rc =>
        by_cases hcs : rc.success
        · simpa [scrapeAuto, scrapeAutoCrawl4ai, hbs, hcs] using hc rc rfl
        · cases p with
          | none =>
              simpa [scrapeAuto, scrapeAutoCrawl4ai, scrapeAutoPlaywright,
                scrapeAutoFirecrawl, hbs, hcs] using hf
          | some rp =>
              by_cases hps : rp.success
              · simpa [scrapeAuto, scrapeAutoCrawl4ai, scrapeAutoPlaywright,
                  scrapeAutoFirecrawl, hbs, hcs, hps] using hp rp rfl
              · simpa [scrapeAuto, scrapeAutoCrawl4ai, scrapeAutoPlaywright,
                  scrapeAutoFirecrawl, hbs, hcs, hps] using hf

/-- C2 amended: success = true implies error = null and success = false
implies markdown = "" for every result of the lightweight-HTTP strategy,
of the hosted-API strategy, and of the orchestrator (granting the same
for the results its other strategies hand it); the original claim's
"markdown non-empty on success" part is dropped
(see the counterexample). -/
theorem c2_success_error_invariant :
    (∀ outcomes : Nat → BS4Outcome, ∀ n : Nat,
        resultWeakInv (bs4ScrapeUrl outcomes n).1) ∧
    (∀ apiKey : Bool, ∀ responses : Nat → FirecrawlOutcome,
        ∀ fname : String, ∀ n : Nat,
        resultWeakInv (firecrawlScrapeUrl apiKey responses fname n)) ∧
    (∀ env : ManagerEnv, ∀ url method : String,
        resultWeakInv env.bs4 → resultWeakInv env.firecrawl →
        (∀ r, env.crawl4ai = some r → resultWeakInv r) →
        (∀ r, env.playwright = some r → resultWeakInv r) →
        resultWeakInv (managerScrapeUrl env url method).1) := by
  refine ⟨?_, ?_, ?_⟩
  · intro outcomes n
    exact bs4Go_weakInv outcomes n none 0
  · intro apiKey responses fname n
    cases apiKey with
    | false => exact ⟨by simp [firecrawlScrapeUrl], by simp [firecrawlScrapeUrl]⟩
    | true =>
        simpa [firecrawlScrapeUrl] using firecrawlGo_weakInv responses fname n 0
  · intro env url method hb hf hc hp
    by_cases h1 : pyStrip method = "BS4"
    · simpa [managerScrapeUrl, h1] using hb
    · by_cases h2 : pyStrip method = "Crawl4AI"
      · cases hcc : env.crawl4ai with
        | none =>
            refine ⟨?_, ?_⟩ <;> simp [managerScrapeUrl, h1, h2, hcc]
        | some r =>
            simpa [managerScrapeUrl, h1, h2, hcc] using hc r hcc
      · by_cases h3 : pyStrip method = "Playwright"
        · cases hpp : env.playwright with
          | none =>
              refine ⟨?_, ?_⟩ <;> simp [managerScrapeUrl, h1, h2, h3, hpp]
          | some r =>
              simpa [managerScrapeUrl, h1, h2, h3, hpp] using hp r hpp
        · by_cases h4 : pyStrip method = "Firecrawl"
          · simpa [managerScrapeUrl, h1, h2, h3, h4] using hf
          · by_cases h5 : pyStrip method = "Auto"
            · simpa [managerScrapeUrl, h1, h2, h3, h4, h5] using
                scrapeAuto_weakInv env hb hf hc hp
            · refine ⟨?_, ?_⟩ <;>
                simp [managerScrapeUrl, h1, h2, h3, h4, h5]

/-- Witness for C2 amended: the orchestrator part at a concrete
environment whose service results all satisfy the weak invariant. -/
theorem c2_success_error_invariant_witness :
    resultWeakInv (managerScrapeUrl
      ⟨{ success := false, markdown := "", error := some "boom",
         filename := some "" }, none, none,
       { success := true, markdown := "body", error := none,
         filename := some "a.md" }⟩ "http://x" "Auto").1 :=
  c2_success_error_invariant.2.2 _ "http://x" "Auto"
    (by decide) (by decide)
    (fun r hr => by simp at hr) (fun r hr => by simp at hr)

/-- What the external DeepSeek call can come back with, as seen by
`extract_attributes`: an API exception, a reply whose text fails JSON
parsing, or a parsed JSON object (a key/value list). -/
inductive ExtractorOutcome where
  | apiError (msg : String)
  | unparsable (raw : String)
  | parsed (data : List (String × String))
deriving DecidableEq, Repr

/-- `data.get(key, "")` on a key/value list. -/
def lookupD (data : List (String × String)) (key : String) : String :=
  match data.find? (fun kv => kv.1 == key) with
  | some kv => kv.2
  | none => ""

/-- `DeepSeekService.extract_attributes`: without a configured client or
without content it returns all-empty; an API error or unparsable reply
degrades to all-empty; a parsed reply is completed so that every
requested header is present (missing keys become ""). -/
def extract_attributes (clientConfigured : Bool) (outcome : ExtractorOutcome)
    (markdown_content : String) (headers : List String) :
    List (String × String) :=
  if clientConfigured = false then headers.map (fun h => (h, ""))
  else if markdown_content = "" then headers.map (fun h => (h, ""))
  else
    match outcome with
    | .apiError _ => headers.map (fun h => (h, ""))
    | .unparsable _ => headers.map (fun h => (h, ""))
    | .parsed data => headers.map (fun h => (h, lookupD data h))

/-- `DeepSeekService.extract_from_multiple_sources`: start from
`{h: {} for h in headers}` and, per source in order, either call the
extractor (source successful with non-empty markdown) or write "" for
every header. The inner maps are kept as key/value lists in insertion
order. -/
def extract_from_multiple_sources (clientConfigured : Bool)
    (outcomes : String → ExtractorOutcome)
    (markdown_contents : List (String × ScrapeResult))
    (headers : List String) : List (String × List (String × String)) :=
  markdown_contents.foldl
    (fun results kcd =>
      if kcd.2.success = true ∧ kcd.2.markdown ≠ "" then
        results.map (fun hrow =>
          (hrow.1, hrow.2 ++
            [(kcd.1, lookupD (extract_attributes clientConfigured
              (outcomes kcd.1) kcd.2.markdown headers) hrow.1)]))
      else
        results.map (fun hrow => (hrow.1, hrow.2 ++ [(kcd.1, "")])))
    (headers.map (fun h => (h, [])))

/-- The value the coordinator records for header `h` from source `kcd`,
in the spec's words: a source with success = false or empty markdown
contributes "", otherwise the extractor's value for `h` (itself "" when
the extractor errored, was unparsable, or omitted the key). -/
def coordinatorCell (clientConfigured : Bool)
    (outcomes : String → ExtractorOutcome) (headers : List String)
    (kcd : String × ScrapeResult) (h : String) : String :=
  if kcd.2.success = true ∧ kcd.2.markdown ≠ "" then
    lookupD (extract_attributes clientConfigured (outcomes kcd.1)
      kcd.2.markdown headers) h
  else ""

/-- One fold step of the coordinator keeps the headers-indexed shape. -/
theorem extract_sources_foldl_shape (clientConfigured : Bool)
    (outcomes : String → ExtractorOutcome) (headers : List String) :
    ∀ (contents : List (String × ScrapeResult))
      (f : String → List (String × String)),
      contents.foldl
        (fun results kcd =>
          if kcd.2.success = true ∧ kcd.2.markdown ≠ "" then
            results.map (fun hrow =>
              (hrow.1, hrow.2 ++
                [(kcd.1, lookupD (extract_attributes clientConfigured
                  (outcomes kcd.1) kcd.2.markdown headers) hrow.1)]))
          else
            results.map (fun hrow => (hrow.1, hrow.2 ++ [(kcd.1, "")])))
        (headers.map (fun h => (h, f h)))
      = headers.map (fun h =>
          (h, f h ++ contents.map (fun kcd =>
            (kcd.1, coordinatorCell clientConfigured outcomes headers kcd h)))) := by
  intro contents
  induction contents with
  | nil => intro f; simp
  | cons kcd rest ih =>
      intro f
      by_cases hc : kcd.2.success = true ∧ kcd.2.markdown ≠ ""
      · rw [List.foldl_cons, if_pos hc, List.map_map]
        have step :
            ((fun hrow : String × List (String × String) =>
                (hrow.1, hrow.2 ++
                  [(kcd.1, lookupD (extract_attributes clientConfigured
                    (outcomes kcd.1) kcd.2.markdown headers) hrow.1)]))
              ∘ (fun h => (h, f h)))
            = fun h => (h, f h ++
                [(kcd.1, lookupD (extract_attributes clientConfigured
                  (outcomes kcd.1) kcd.2.markdown headers) h)]) := rfl
        rw [step, ih]
        simp [coordinatorCell, hc]
      · rw [List.foldl_cons, if_neg hc, List.map_map]
        have step :
            ((fun hrow : String × List (String × String) =>
                (hrow.1, hrow.2 ++ [(kcd.1, "")]))
              ∘ (fun h => (h, f h)))
            = fun h => (h, f h ++ [(kcd.1, "")]) := rfl
        rw [step, ih]
        simp [coordinatorCell, hc]

/-- C3: the coordinator's matrix always has one row per requested
attribute, in order, and within each row one entry per source key, in
order — so the matrix is total over attributes × sources; a source whose
result failed or had empty markdown contributes "" for every attribute,
and an extractor API error or unparsable reply likewise degrades that
source to "" for every attribute, with all remaining sources still
processed (their entries are present and computed independently). -/
theorem c3_matrix_total (clientConfigured : Bool)
    (outcomes : String → ExtractorOutcome)
    (contents : List (String × ScrapeResult)) (headers : List String) :
    extract_from_multiple_sources clientConfigured outcomes contents headers
      = headers.map (fun h =>
          (h, contents.map (fun kcd =>
            (kcd.1, coordinatorCell clientConfigured outcomes headers kcd h)))) ∧
    (∀ kcd : String × ScrapeResult, ∀ h : String,
      ¬(kcd.2.success = true ∧ kcd.2.markdown ≠ "") →
      coordinatorCell clientConfigured outcomes headers kcd h = "") ∧
    (∀ msg md : String, ∀ hs : List String,
      extract_attributes true (ExtractorOutcome.apiError msg) md hs
        = hs.map (fun h => (h, ""))) ∧
    (∀ raw md : String, ∀ hs : List String,
      extract_attributes true (ExtractorOutcome.unparsable raw) md hs
        = hs.map (fun h => (h, ""))) := by
  refine ⟨?_, ?_, ?_, ?_⟩
  · simpa using extract_sources_foldl_shape clientConfigured outcomes headers
      contents (fun _ => [])
  · intro kcd h hfail
    simp [coordinatorCell, hfail]
  · intro msg md hs
    by_cases hmd : md = "" <;> simp [extract_attributes, hmd]
  · intro raw md hs
    by_cases hmd : md = "" <;> simp [extract_attributes, hmd]

/-- Witness for C3 at a concrete two-source call: one failed source, one
successful source with an erroring extractor; the failed source's cell is
"" with its hypothesis discharged concretely. -/
theorem c3_matrix_total_witness :
    extract_from_multiple_sources true
        (fun _ => ExtractorOutcome.apiError "boom")
        [("url1", { success := false, markdown := "", error := some "e",
                    filename := none }),
         ("url2", { success := true, markdown := "text", error := none,
                    filename := some "f" })]
        ["color", "size"]
      = [("color", [("url1", ""), ("url2", "")]),
         ("size", [("url1", ""), ("url2", "")])] ∧
      coordinatorCell true (fun _ => ExtractorOutcome.apiError "boom")
        ["color", "size"]
        ("url1", { success := false, markdown := "", error := some "e",
                   filename := none }) "color" = "" := by
  have h := c3_matrix_total true (fun _ => ExtractorOutcome.apiError "boom")
    [("url1", { success := false, markdown := "", error := some "e",
                filename := none }),
     ("url2", { success := true, markdown := "text", error := none,
                filename := some "f" })]
    ["color", "size"]
  constructor
  · rw [h.1]
    rfl
  · exact h.2.1
      ("url1",
        { success := false, markdown := "", error := some "e",
          filename := none })
      "color" (by decide)

/-- `st.session_state.final_values`: attribute → chosen value; `none`
models a key that is absent from the dict. -/
def FinalMap : Type := String → Option String

/-- `st.session_state.final_values[header] = v`. -/
def updateFinal (fv : FinalMap) (h : String) (v : String) : FinalMap :=
  fun x => if x = h then some v else fv x

/-- `results.get(header, {})` on the matrix. -/
def matrixRow (m : List (String × List (String × String))) (h : String) :
    List (String × String) :=
  match m.find? (fun hrow => hrow.1 == h) with
  | some hrow => hrow.2
  | none => []

/-- The source priority the Auto-fill Best button scans:
`["url1", "url2", "url3", "pdf"]` (the spec's document source is the
"pdf" key). -/
def sourcePriority : List String := ["url1", "url2", "url3", "pdf"]

/-- Python truthiness test `if val and str(val).strip():` on a string
value: non-empty and not whitespace-only. -/
def isUsableVal (v : String) : Bool := v != "" && pyStrip v != ""

/-- The "Auto-fill Best" button of `render_results_table` (app.py): per
header, scan url1, url2, url3, pdf and assign the first value passing
the truthiness test, leaving the header untouched if none does. -/
def autofillBest (results : List (String × List (String × String)))
    (headers : List String) (fv : FinalMap) : FinalMap :=
  headers.foldl
    (fun acc h =>
      match (sourcePriority.map (fun k => lookupD (matrixRow results h) k)).find?
          isUsableVal with
      | some v => updateFinal acc h v
      | none => acc)
    fv

/-- The "Use URL n" buttons of `render_results_table` (app.py),
parametrized by the source key (the three buttons' bodies are identical
up to the key): per header, assign that source's value if it passes the
truthiness test, else leave the header untouched. -/
def useSourceFill (results : List (String × List (String × String)))
    (headers : List String) (key : String) (fv : FinalMap) : FinalMap :=
  headers.foldl
    (fun acc h =>
      let val := lookupD (matrixRow results h) key
      if isUsableVal val then updateFinal acc h val else acc)
    fv

/-- Common shape of both buttons: a per-header candidate that, when
present, is written under that same header. -/
def fillFold (g : String → Option String) (headers : List String)
    (fv : FinalMap) : FinalMap :=
  headers.foldl
    (fun acc h =>
      match g h with
      | some v => updateFinal acc h v
      | none => acc)
    fv

theorem autofillBest_eq_fillFold (results : List (String × List (String × String)))
    (headers : List String) (fv : FinalMap) :
    autofillBest results headers fv =
      fillFold (fun h =>
        (sourcePriority.map (fun k => lookupD (matrixRow results h) k)).find?
          isUsableVal) headers fv := rfl

theorem useSourceFill_eq_fillFold (results : List (String × List (String × String)))
    (headers : List String) (key : String) (fv : FinalMap) :
    useSourceFill results headers key fv =
      fillFold (fun h =>
        let val := lookupD (matrixRow results h) key
        if isUsableVal val then some val else none) headers fv := by
  unfold useSourceFill fillFold
  congr 1
  funext acc h
  by_cases hv : isUsableVal (lookupD (matrixRow results h) key) <;> simp [hv]

/-- Each header's final value after a fill pass: its own candidate when
one exists, the previous value otherwise; headers outside the list are
untouched. -/
theorem fillFold_char (g : String → Option String) :
    ∀ (headers : List String) (fv : FinalMap) (h : String),
      (h ∈ headers →
        fillFold g headers fv h =
          match g h with
          | some v => some v
          | none => fv h) ∧
      (h ∉ headers → fillFold g headers fv h = fv h) := by
  intro headers
  induction headers with
  | nil =>
      intro fv h
      exact ⟨fun hmem => absurd hmem (List.not_mem_nil h), fun _ => rfl⟩
  | cons a rest ih =>
      intro fv h
      have step : fillFold g (a :: rest) fv =
          fillFold g rest
            (match g a with
             | some v => updateFinal fv a v
             | none => fv) := rfl
      constructor
      · intro hmem
        by_cases hr : h ∈ rest
        · rw [step]
          rw [(ih _ h).1 hr]
          rcases hgh : g h with _ | v
          · rcases hga : g a with _ | w
            · simp [hga]
            · simp only
              by_cases hha : h = a
              · subst hha
                rw [hgh] at hga
                exact absurd hga (by simp)
              · simp [updateFinal, hha]
          · rfl
        · have hha : h = a := by
            rcases List.mem_cons.mp hmem with h1 | h2
            · exact h1
            · exact absurd h2 hr
          subst hha
          rw [step, (ih _ h).2 hr]
          rcases hgh : g h with _ | v
          · simp [hgh]
          · simp [hgh, updateFinal]
      · intro hmem
        have hha : h ≠ a := fun e => hmem (e ▸ List.mem_cons_self a rest)
        have hr : h ∉ rest := fun e => hmem (List.mem_cons_of_mem a e)
        rw [step, (ih _ h).2 hr]
        rcases hga : g a with _ | w
        · rfl
        · simp [updateFinal, hha]

/-- The spec's best-available example matrix, with a whitespace-only
url1 value to separate "non-empty" from the code's truthiness test. -/
def bestFillMatrix : List (String × List (String × String)) :=
  [("color", [("url1", " "), ("url2", "Black"), ("url3", "White")])]

/-- C4 is false as stated: for the matrix
{"color": {url1: " ", url2: "Black", url3: "White"}} the first non-empty
value in priority order is url1's " ", but Auto-fill Best skips it (the
code tests `val and str(val).strip()`) and assigns "Black". -/
theorem c4_counterexample :
    autofillBest bestFillMatrix ["color"] (fun _ => none) "color"
        = some "Black" ∧
      (sourcePriority.map (fun k => lookupD (matrixRow bestFillMatrix "color") k)).find?
          (fun v => v != "") = some " " ∧
      ¬ ((" " : String) = "Black") := by
  refine ⟨rfl, rfl, ?_⟩
  decide

/-- C4 amended: Auto-fill Best assigns, per attribute in the header list,
the first value that is non-empty after stripping whitespace, scanning
sources in the fixed order url1, url2, url3, pdf; an attribute with no
such value — and every attribute outside the header list — keeps its
previous final value; on the spec's example matrix (url1 empty) the
chosen value is still "Black". -/
theorem c4_best_available (results : List (String × List (String × String)))
    (headers : List String) (fv : FinalMap) (h : String) :
    (h ∈ headers →
      autofillBest results headers fv h =
        match (sourcePriority.map (fun k => lookupD (matrixRow results h) k)).find?
            isUsableVal with
        | some v => some v
        | none => fv h) ∧
    (h ∉ headers → autofillBest results headers fv h = fv h) ∧
    autofillBest bestFillMatrix ["color"] (fun _ => none) "color"
      = some "Black" := by
  refine ⟨?_, ?_, rfl⟩
  · intro hmem
    rw [autofillBest_eq_fillFold]
    exact (fillFold_char _ headers fv h).1 hmem
  · intro hmem
    rw [autofillBest_eq_fillFold]
    exact (fillFold_char _ headers fv h).2 hmem

/-- Witness for C4 amended at the example matrix, membership discharged
concretely. -/
theorem c4_best_available_witness :
    autofillBest bestFillMatrix ["color"] (fun _ => none) "color" =
      match (sourcePriority.map
          (fun k => lookupD (matrixRow bestFillMatrix "color") k)).find?
          isUsableVal with
      | some v => some v
      | none => none :=
  (c4_best_available bestFillMatrix ["color"] (fun _ => none) "color").1
    (by decide)

/-- C5: single-source reconciliation writes the chosen source's value to
an attribute only when that value passes the non-blank test — in
particular an empty value leaves the attribute's existing final value
unchanged, and attributes outside the header list are never touched. -/
theorem c5_single_source_frame (results : List (String × List (String × String)))
    (headers : List String) (key : String) (fv : FinalMap) (h : String) :
    (h ∈ headers →
      useSourceFill results headers key fv h =
        (if isUsableVal (lookupD (matrixRow results h) key)
         then some (lookupD (matrixRow results h) key)
         else fv h)) ∧
    (h ∉ headers → useSourceFill results headers key fv h = fv h) := by
  constructor
  · intro hmem
    rw [useSourceFill_eq_fillFold]
    have := (fillFold_char
      (fun h =>
        let val := lookupD (matrixRow results h) key
        if isUsableVal val then some val else none) headers fv h).1 hmem
    rw [this]
    by_cases hv : isUsableVal (lookupD (matrixRow results h) key) <;> simp [hv]
  · intro hmem
    rw [useSourceFill_eq_fillFold]
    exact (fillFold_char _ headers fv h).2 hmem

/-- Witness for C5: source url3 has "" for "color", so the prior final
value "Prev" survives the Use URL 3 action. -/
theorem c5_single_source_frame_witness :
    useSourceFill [("color", [("url3", "")])] ["color"] "url3"
        (fun x => if x = "color" then some "Prev" else none) "color"
      = some "Prev" := by
  have h := (c5_single_source_frame [("color", [("url3", "")])] ["color"]
    "url3" (fun x => if x = "color" then some "Prev" else none) "color").1
    (by decide)
  rw [h]
  rfl

/-- An HTML element as `content_filter.py` inspects it: tag name, class
list, id, the string values of its data-* attributes, its own visible
(already stripped) text, and child elements. -/
inductive Elem where
  | mk (name : String) (classes : List String) (id : String)
      (dataAttrs : List String) (ownText : String) (children : List Elem)

def Elem.name : Elem → String
  | .mk n _ _ _ _ _ => n

def Elem.classes : Elem → List String
  | .mk _ cs _ _ _ _ => cs

def Elem.id : Elem → String
  | .mk _ _ i _ _ _ => i

def Elem.dataAttrs : Elem → List String
  | .mk _ _ _ ds _ _ => ds

def Elem.ownText : Elem → String
  | .mk _ _ _ _ t _ => t

def Elem.children : Elem → List Elem
  | .mk _ _ _ _ _ cs => cs

mutual

/-- `element.get_text(strip=True)`: the element's own text followed by
its descendants' text. -/
def elemText : Elem → String
  | .mk _ _ _ _ t cs => t ++ elemsText cs

def elemsText : List Elem → String
  | [] => ""
  | e :: es => elemText e ++ elemsText es

end

mutual

/-- `element.find_all(True)`: all descendant tags in document order. -/
def elemDescendants : Elem → List Elem
  | .mk _ _ _ _ _ cs => elemsAndDescendants cs

def elemsAndDescendants : List Elem → List Elem
  | [] => []
  | e :: es => e :: (elemDescendants e ++ elemsAndDescendants es)

end

/-- `NOISE_PATTERNS` of content_filter.py (all entries are literal
substrings, so `re.search` is substring containment on the lowercased
text). -/
def NOISE_PATTERNS : List String :=
  ["header", "navbar", "nav-", "navigation", "top-bar", "topbar",
   "menu", "mega-menu", "dropdown", "hamburger",
   "footer", "foot-", "bottom-bar", "bottombar", "copyright",
   "related", "recommend", "similar", "also-bought", "also-viewed",
   "you-may-like", "customers-also", "frequently-bought",
   "carousel", "slider", "swiper", "slick",
   "review", "rating", "comment", "feedback", "testimonial",
   "star-rating", "user-review", "customer-review",
   "social", "share", "facebook", "twitter", "instagram", "pinterest",
   "whatsapp", "telegram", "linkedin",
   "banner", "promo", "popup", "modal", "overlay", "ad-",
   "advertisement", "sponsored", "newsletter", "subscribe",
   "breadcrumb", "pagination", "pager", "sidebar", "widget",
   "cookie", "gdpr", "consent", "chat", "support-chat",
   "recently-viewed", "wishlist", "compare"]

/-- `PRODUCT_PATTERNS` of content_filter.py. -/
def PRODUCT_PATTERNS : List String :=
  ["product-title", "product-name", "product-info",
   "product-description", "product-detail", "product-spec",
   "specification", "spec-table", "tech-spec", "features",
   "description", "overview", "about-product", "highlights",
   "key-features", "bullet", "attribute", "property",
   "price", "offer", "discount", "sku", "model",
   "dimensions", "weight", "capacity", "warranty",
   "pdp-", "detail-page", "main-content", "product-content",
   "title", "titleblock", "dp-", "detail", "feature",
   "a-section", "a-row", "a-box", "atc-",
   "availability", "buybox", "cart",
   "item-", "sku-", "prod-", "specs", "info"]

/-- `_matches_pattern`: empty text never matches; otherwise any pattern
occurring in the lowercased text matches. -/
def matches_pattern (text : String) (pats : List String) : Bool :=
  if text = "" then false
  else pats.any (fun p => containsSeq p.toList (lowerStr text).toList)

/-- `' '.join(strs)` (kernel-computable). -/
def joinSpaceGo : List String → List Char
  | [] => []
  | [s] => s.toList
  | s :: rest => s.toList ++ ' ' :: joinSpaceGo rest

/-- `" ".join(element.get("class", []))`. -/
def classStr (e : Elem) : String :=
  String.mk (joinSpaceGo e.classes)

/-- `_is_noise_element`: h1/h2/h3/main/article are always preserved; the
class and id channels require a NOISE match without a PRODUCT match; a
data-attribute value only needs a NOISE match. -/
def is_noise_element (e : Elem) : Bool :=
  if e.name == "h1" || e.name == "h2" || e.name == "h3"
      || e.name == "main" || e.name == "article" then false
  else if matches_pattern (classStr e) NOISE_PATTERNS
      && !matches_pattern (classStr e) PRODUCT_PATTERNS then true
  else if matches_pattern e.id NOISE_PATTERNS
      && !matches_pattern e.id PRODUCT_PATTERNS then true
  else e.dataAttrs.any (fun v => matches_pattern v NOISE_PATTERNS)

/-- `_is_product_element`: PRODUCT match on class or id (data attributes
are not consulted). -/
def is_product_element (e : Elem) : Bool :=
  matches_pattern (classStr e) PRODUCT_PATTERNS
    || matches_pattern e.id PRODUCT_PATTERNS

/-- Step 2 of `clean_html_for_product`: an element joins
`elements_to_remove` iff it is noise-eligible, its visible text is not
longer than 100 characters, and neither it nor any descendant is a
product element. -/
def noiseRemovalCondition (e : Elem) : Bool :=
  is_noise_element e
    && !(decide (100 < (elemText e).length))
    && !is_product_element e
    && !((elemDescendants e).any is_product_element)

/-- An element whose only token is the data-attribute value
"review price": it matches NOISE and PRODUCT at once. -/
def c6elem : Elem := Elem.mk "div" [] "" ["review price"] "short" []

/-- C6 is false as stated: this element's tokens match the PRODUCT
pattern set (the data value contains "price"), so by the claim it is
neither noise-eligible nor removable — yet `_is_noise_element` accepts it
(the data-attribute channel never consults PRODUCT_PATTERNS) and the
removal guard drops it (`_is_product_element` only looks at class and
id). -/
theorem c6_counterexample :
    is_noise_element c6elem = true ∧
      noiseRemovalCondition c6elem = true ∧
      matches_pattern "review price" NOISE_PATTERNS = true ∧
      matches_pattern "review price" PRODUCT_PATTERNS = true := by
  refine ⟨rfl, rfl, rfl, rfl⟩

/-- `!l.any p` is `l.all (!p ·)` — used to phrase the removal guard
positively. -/
theorem not_any_eq_all_not (p : Elem → Bool) :
    ∀ l : List Elem, (!(l.any p)) = l.all (fun d => !p d) := by
  intro l
  induction l with
  | nil => rfl
  | cons a t ih => simp [List.any_cons, List.all_cons, Bool.not_or, ih]

/-- C6 amended: an element other than h1/h2/h3/main/article is
noise-eligible iff its class tokens match NOISE and not PRODUCT, or its
id matches NOISE and not PRODUCT, or some data-attribute value matches
NOISE (data attributes are never PRODUCT-excluded); and a noise-eligible
element is removed exactly when its visible text is at most 100
characters and neither its own class/id nor any descendant's class/id
matches the PRODUCT pattern set. -/
theorem c6_noise_eligibility (e : Elem) :
    is_noise_element e =
      ((!(e.name == "h1" || e.name == "h2" || e.name == "h3"
          || e.name == "main" || e.name == "article"))
        && ((matches_pattern (classStr e) NOISE_PATTERNS
              && !matches_pattern (classStr e) PRODUCT_PATTERNS)
            || (matches_pattern e.id NOISE_PATTERNS
              && !matches_pattern e.id PRODUCT_PATTERNS)
            || e.dataAttrs.any (fun v => matches_pattern v NOISE_PATTERNS))) ∧
    noiseRemovalCondition e =
      (is_noise_element e
        && decide ((elemText e).length ≤ 100)
        && !(matches_pattern (classStr e) PRODUCT_PATTERNS
              || matches_pattern e.id PRODUCT_PATTERNS)
        && (elemDescendants e).all (fun d =>
            !(matches_pattern (classStr d) PRODUCT_PATTERNS
              || matches_pattern d.id PRODUCT_PATTERNS))) := by
  constructor
  · unfold is_noise_element
    cases hpres : (e.name == "h1" || e.name == "h2" || e.name == "h3"
        || e.name == "main" || e.name == "article") <;>
      cases hcls : (matches_pattern (classStr e) NOISE_PATTERNS
          && !matches_pattern (classStr e) PRODUCT_PATTERNS) <;>
        cases hid : (matches_pattern e.id NOISE_PATTERNS
            && !matches_pattern e.id PRODUCT_PATTERNS) <;>
          simp [hpres, hcls, hid]
  · unfold noiseRemovalCondition
    have h1 : (!(decide (100 < (elemText e).length)))
        = decide ((elemText e).length ≤ 100) := by
      rw [← decide_not]
      exact decide_eq_decide.mpr Nat.not_lt
    have h2 : (!((elemDescendants e).any is_product_element))
        = (elemDescendants e).all (fun d =>
            !(matches_pattern (classStr d) PRODUCT_PATTERNS
              || matches_pattern d.id PRODUCT_PATTERNS)) := by
      rw [not_any_eq_all_not]
      rfl
    rw [h1, h2]
    rfl
